import Mathlib

/-!
Verification of the network-analytics dashboard (`src/app.py`).

The program is a single Flask script:
  * `load_network_data` reads `network_data.csv` via pandas, returning the
    dataframe on success and `None` both when the file is missing
    (`FileNotFoundError`) and when it exists but cannot be parsed
    (any other exception); the two branches differ only in a console print.
  * `compute_stats` turns the dataframe into a stats dict:
    `protocol_counts` via `value_counts().to_dict()`,
    `top_ips` via `Counter(src ++ dst).most_common(3)`,
    `total_packets` via `len(df)`, and `avg_packet_size` via
    `df['Packet Size'].mean()` (which is NaN on an empty frame).
  * `dashboard` and `api_stats` are the two routes: on a `None` dataframe
    they return an error page / error JSON, otherwise stats plus charts.

The embedding below models a dataframe row as a `PacketRecord`, the
dataframe as a `List PacketRecord`, Python `None` as `Option.none`, and the
pandas floating-point mean as `PFloat` (a rational or the NaN marker).
`Counter` iteration order is first-encounter order of the keys, and
`most_common` sorts by count descending, stable on ties; this is modelled by
`firstOccurrences`, `countPairs` and the stable insertion sort
`sortCountDesc`.
-/

/-- One row of `network_data.csv`: columns `Protocol`, `Source IP`,
`Destination IP`, `Packet Size`. -/
structure PacketRecord where
  protocol : String
  sourceIP : String
  destIP : String
  size : ℚ
deriving DecidableEq, Repr

/-- Model of a pandas floating-point result: either a numeric value or NaN
(which pandas produces for the mean of an empty column). -/
inductive PFloat where
  | nan
  | val (q : ℚ)
deriving DecidableEq, Repr

/-- Model of `Series.mean()`: NaN on an empty column, the arithmetic mean
otherwise. -/
def seriesMean (l : List ℚ) : PFloat :=
  if l.length = 0 then PFloat.nan else PFloat.val (l.sum / l.length)

/-- The distinct elements of `l` in order of first encounter: the key order
of a Python `Counter` (and of `value_counts`) built from `l`. -/
def firstOccurrences {α : Type} [DecidableEq α] : List α → List α
  | [] => []
  | x :: xs => x :: (firstOccurrences xs).filter (fun y => y ≠ x)

/-- The content of `Counter(l)`: each distinct element of `l`, in first
encounter order, paired with its number of occurrences in `l`. -/
def countPairs {α : Type} [DecidableEq α] (l : List α) : List (α × Nat) :=
  (firstOccurrences l).map (fun x => (x, l.count x))

/-- Insert a pair into a count-sorted list, before the first entry whose
count does not exceed it.  Used to model the stable descending sort of
`Counter.most_common` / `value_counts`. -/
def insertDesc {α : Type} (p : α × Nat) : List (α × Nat) → List (α × Nat)
  | [] => [p]
  | q :: qs => if q.2 ≤ p.2 then p :: q :: qs else q :: insertDesc p qs

/-- Stable sort by count, descending: entries with equal counts keep their
original relative order, exactly as `Counter.most_common` documents. -/
def sortCountDesc {α : Type} : List (α × Nat) → List (α × Nat)
  | [] => []
  | p :: ps => insertDesc p (sortCountDesc ps)

/-- `df['Protocol'].value_counts().to_dict()`: occurrence count of every
distinct protocol, ordered by count descending. -/
def value_counts (l : List String) : List (String × Nat) :=
  sortCountDesc (countPairs l)

/-- `all_ips = list(df['Source IP']) + list(df['Destination IP'])`: the
combined sequence, all source entries in row order then all destination
entries in row order. -/
def combinedIPs (df : List PacketRecord) : List String :=
  df.map PacketRecord.sourceIP ++ df.map PacketRecord.destIP

/-- `Counter(all_ips).most_common()`: every address with its combined count,
ranked descending by count, ties in first-encounter order. -/
def rankedIPs (df : List PacketRecord) : List (String × Nat) :=
  sortCountDesc (countPairs (combinedIPs df))

/-- The fixed-shape statistics record built by `compute_stats`; dicts are
modelled as association lists in the order Python iterates them. -/
structure StatisticsReport where
  protocol_counts : List (String × Nat)
  top_ips : List (String × Nat)
  total_packets : Nat
  avg_packet_size : PFloat
deriving DecidableEq, Repr

/-- The body of `compute_stats` on an actual dataframe (the non-`None`
branch of `src/app.py:26-50`). -/
def computeStatsTable (df : List PacketRecord) : StatisticsReport :=
  { protocol_counts := value_counts (df.map PacketRecord.protocol)
    top_ips := (rankedIPs df).take 3
    total_packets := df.length
    avg_packet_size := seriesMean (df.map PacketRecord.size) }

/-- `compute_stats(df)` from `src/app.py:26-50`: returns `None` when given
`None`, otherwise the statistics record. -/
def compute_stats : Option (List PacketRecord) → Option StatisticsReport
  | none => none
  | some df => some (computeStatsTable df)

/-- The three ways reading `network_data.csv` can go for the loader: the
file is absent (`FileNotFoundError`), present but unparsable (any other
exception from `pd.read_csv`), or parses to a table. -/
inductive FileOutcome where
  | missing
  | malformed
  | parsed (df : List PacketRecord)

/-- `load_network_data()` from `src/app.py:13-24`: the dataframe on success;
`None` both when the file is missing and when it is unparsable (the two
except branches print different console messages but return the same
value). -/
def load_network_data : FileOutcome → Option (List PacketRecord)
  | FileOutcome.missing => none
  | FileOutcome.malformed => none
  | FileOutcome.parsed df => some df

/-- A rendered chart, identified by its kind and the aggregator output it
was drawn from (the PNG bytes themselves are outside the model). -/
inductive ChartImage where
  | protocolBar (protocol_counts : List (String × Nat))
  | ipPie (top_ips : List (String × Nat))
deriving DecidableEq

/-- `create_protocol_chart` (`src/app.py:52-78`): bar chart of the protocol
counts, rendering modelled as a function of its input. -/
def create_protocol_chart (protocol_counts : List (String × Nat)) : ChartImage :=
  ChartImage.protocolBar protocol_counts

/-- `create_ip_chart` (`src/app.py:80-107`): pie chart of the top IPs,
rendering modelled as a function of its input. -/
def create_ip_chart (top_ips : List (String × Nat)) : ChartImage :=
  ChartImage.ipPie top_ips

/-- Response of the `/` route: either the error template with a message and
no charts, or the dashboard template with stats and both charts. -/
inductive DashResponse where
  | errorPage (error_message : String)
  | dashboardPage (stats : StatisticsReport)
      (protocol_chart : ChartImage) (ip_chart : ChartImage)
deriving DecidableEq

/-- The `dashboard` route (`src/app.py:109-129`): load, short-circuit to the
error page on `None`, otherwise compute stats and render both charts. -/
def dashboard (source : FileOutcome) : DashResponse :=
  match load_network_data source with
  | none => DashResponse.errorPage
      "Could not load network_data.csv file. Please make sure it exists in the project directory."
  | some df =>
      let stats := computeStatsTable df
      DashResponse.dashboardPage stats
        (create_protocol_chart stats.protocol_counts)
        (create_ip_chart stats.top_ips)

/-- Response of the `/api/stats` route: either `{'error': ...}` or the
statistics record as JSON. -/
inductive ApiResponse where
  | errorJson (error : String)
  | statsJson (stats : StatisticsReport)
deriving DecidableEq

/-- The `api_stats` route (`src/app.py:131-139`). -/
def api_stats (source : FileOutcome) : ApiResponse :=
  match load_network_data source with
  | none => ApiResponse.errorJson "Could not load data"
  | some df => ApiResponse.statsJson (computeStatsTable df)

/-- The two-row table of the spec's concrete test vector. -/
def exampleTable : List PacketRecord :=
  [⟨"TCP", "1.1.1.1", "2.2.2.2", 100⟩, ⟨"UDP", "1.1.1.1", "3.3.3.3", 200⟩]

/-- C10: applied to the loader's failure value `None` instead of a table,
`compute_stats` returns `None` rather than raising or producing a partial
record. -/
theorem c10_compute_stats_none : compute_stats none = none := rfl

/-- C8: on the table [(TCP, 1.1.1.1, 2.2.2.2, 100), (UDP, 1.1.1.1, 3.3.3.3, 200)]
the aggregator returns protocol counts {TCP: 1, UDP: 1}, 2 total packets,
average size 150.0, and a top-address list starting with 1.1.1.1 at
combined count 2. -/
theorem c8_example_table :
    (computeStatsTable exampleTable).protocol_counts = [("TCP", 1), ("UDP", 1)] ∧
    (computeStatsTable exampleTable).total_packets = 2 ∧
    (computeStatsTable exampleTable).avg_packet_size = PFloat.val 150 ∧
    (computeStatsTable exampleTable).top_ips.head? = some ("1.1.1.1", 2) := by
  refine ⟨by decide, by decide, ?_, by decide⟩
  show seriesMean (exampleTable.map PacketRecord.size) = PFloat.val 150
  simp only [exampleTable, seriesMean, List.map_cons, List.map_nil, List.sum_cons,
    List.sum_nil, List.length_cons, List.length_nil]
  norm_num

/-- C2 (code bug): on the empty table the code does return 0 total packets,
an empty protocol mapping and an empty top-address list, but
`avg_packet_size` is the NaN of `Series.mean()` carried silently inside an
ordinary statistics record -- nothing flags the undefined average, contrary
to the claim's requirement. -/
theorem c2_empty_table_nan_passed_through :
    compute_stats (some []) =
      some { protocol_counts := [], top_ips := [], total_packets := 0,
             avg_packet_size := PFloat.nan } := rfl

/-- C3 counterexample: the loader maps a missing file and an unparsable file
to the very same value (`None`), so the two failure outcomes are not
distinguishable by the caller. -/
theorem c3_failures_indistinguishable :
    load_network_data FileOutcome.missing = load_network_data FileOutcome.malformed := rfl

/-- C3 amended: the loader signals both a nonexistent file and an unparsable
file with the single failure value `None` (only the printed console message
differs), so the caller can detect failure but cannot tell NotFound from
ParseError; a successfully parsed table is returned as-is. -/
theorem c3_loader_failure_signalling :
    load_network_data FileOutcome.missing = none ∧
    load_network_data FileOutcome.malformed = none ∧
    ∀ df : List PacketRecord, load_network_data (FileOutcome.parsed df) = some df :=
  ⟨rfl, rfl, fun _ => rfl⟩

/-- C6: the aggregator is deterministic -- two calls of `compute_stats` on
the same table produce equal `StatisticsReport` values (the embedding of
`compute_stats` is a pure function: the source touches no globals, files or
randomness). -/
theorem c6_compute_stats_deterministic (df : Option (List PacketRecord))
    (s₁ s₂ : Option StatisticsReport)
    (h₁ : s₁ = compute_stats df) (h₂ : s₂ = compute_stats df) : s₁ = s₂ :=
  h₁.trans h₂.symm

/-- C6 witness: two calls on the concrete example table agree. -/
theorem c6_witness :
    compute_stats (some exampleTable) = compute_stats (some exampleTable) :=
  c6_compute_stats_deterministic (some exampleTable) _ _ rfl rfl

/-- C7: on a missing input file the loader yields `None`, the dashboard
route renders only the designated error message (no chart, no partial
dashboard), and the API route returns only the error object. -/
theorem c7_missing_file_error_page :
    load_network_data FileOutcome.missing = none ∧
    dashboard FileOutcome.missing = DashResponse.errorPage
      "Could not load network_data.csv file. Please make sure it exists in the project directory." ∧
    api_stats FileOutcome.missing = ApiResponse.errorJson "Could not load data" :=
  ⟨rfl, rfl, rfl⟩

/-- Membership in the first-encounter dedup is membership in the list. -/
theorem mem_firstOccurrences {α : Type} [DecidableEq α] {a : α} :
    ∀ {l : List α}, a ∈ firstOccurrences l ↔ a ∈ l
  | [] => Iff.rfl
  | x :: xs => by
    simp only [firstOccurrences, List.mem_cons, List.mem_filter,
      decide_eq_true_eq, mem_firstOccurrences (l := xs)]
    by_cases h : a = x <;> simp [h]

/-- The first-encounter dedup has no duplicates. -/
theorem nodup_firstOccurrences {α : Type} [DecidableEq α] :
    ∀ l : List α, (firstOccurrences l).Nodup
  | [] => List.nodup_nil
  | x :: xs => by
    rw [firstOccurrences, List.nodup_cons]
    refine ⟨fun hmem => ?_, (nodup_firstOccurrences xs).filter _⟩
    have := (List.mem_filter.mp hmem).2
    simp at this

/-- Inserting a pair is a permutation of cons. -/
theorem insertDesc_perm {α : Type} (p : α × Nat) :
    ∀ l : List (α × Nat), List.Perm (insertDesc p l) (p :: l)
  | [] => List.Perm.refl _
  | q :: qs => by
    rw [insertDesc]
    split
    · exact List.Perm.refl _
    · exact ((insertDesc_perm p qs).cons q).trans (List.Perm.swap p q qs)

/-- The stable count sort permutes its input. -/
theorem sortCountDesc_perm {α : Type} :
    ∀ l : List (α × Nat), List.Perm (sortCountDesc l) l
  | [] => List.Perm.refl _
  | p :: ps => (insertDesc_perm p (sortCountDesc ps)).trans
      ((sortCountDesc_perm ps).cons p)

/-- A pair of `Counter(l)` is a distinct element of `l` with its count. -/
theorem mem_countPairs {α : Type} [DecidableEq α] {p : α × Nat} {l : List α}
    (hp : p ∈ countPairs l) : p.1 ∈ l ∧ p.2 = l.count p.1 := by
  rcases List.mem_map.mp hp with ⟨x, hx, rfl⟩
  exact ⟨mem_firstOccurrences.mp hx, rfl⟩

/-- The counts recorded in `Counter(l)` sum to the length of `l`. -/
theorem sum_countPairs {α : Type} [DecidableEq α] (l : List α) :
    ((countPairs l).map Prod.snd).sum = l.length := by
  have h1 : (countPairs l).map Prod.snd
      = (firstOccurrences l).map (fun x => l.count x) := by
    rw [countPairs, List.map_map]; rfl
  have h2 : (firstOccurrences l).toFinset = l.toFinset := by
    ext a
    simp only [List.mem_toFinset, mem_firstOccurrences]
  have h3 := List.sum_toFinset (fun x => l.count x) (nodup_firstOccurrences l)
  rw [h1, ← h3, h2, List.sum_toFinset_count_eq_length]

/-- The distinct elements of `l` are as many as `l.toFinset` says. -/
theorem length_firstOccurrences {α : Type} [DecidableEq α] (l : List α) :
    (firstOccurrences l).length = l.toFinset.card := by
  have h2 : (firstOccurrences l).toFinset = l.toFinset := by
    ext a
    simp only [List.mem_toFinset, mem_firstOccurrences]
  rw [← h2, List.toFinset_card_of_nodup (nodup_firstOccurrences l)]

/-- C1: for every loaded table the values of the protocol-count mapping sum
to `total_packets`, and `total_packets` is the number of rows. -/
theorem c1_protocol_counts_sum (df : List PacketRecord) :
    (((computeStatsTable df).protocol_counts).map Prod.snd).sum
        = (computeStatsTable df).total_packets ∧
    (computeStatsTable df).total_packets = df.length := by
  refine ⟨?_, rfl⟩
  show ((value_counts (df.map PacketRecord.protocol)).map Prod.snd).sum = df.length
  have hperm := (sortCountDesc_perm (countPairs (df.map PacketRecord.protocol))).map Prod.snd
  rw [value_counts, hperm.sum_eq, sum_countPairs, List.length_map]

/-- C5: every address in the top-address list occurs in the source or
destination column, and the list has exactly `min 3 (distinct addresses)`
entries. -/
theorem c5_top_ips_sound (df : List PacketRecord) :
    (∀ p ∈ (computeStatsTable df).top_ips,
        p.1 ∈ df.map PacketRecord.sourceIP ∨ p.1 ∈ df.map PacketRecord.destIP) ∧
    (computeStatsTable df).top_ips.length = min 3 (combinedIPs df).toFinset.card := by
  constructor
  · intro p hp
    have hp' : p ∈ rankedIPs df := (List.take_sublist 3 (rankedIPs df)).subset hp
    have hp'' : p ∈ countPairs (combinedIPs df) :=
      (sortCountDesc_perm (countPairs (combinedIPs df))).mem_iff.mp hp'
    exact List.mem_append.mp (mem_countPairs hp'').1
  · show ((rankedIPs df).take 3).length = _
    rw [List.length_take, rankedIPs,
      (sortCountDesc_perm (countPairs (combinedIPs df))).length_eq,
      countPairs, List.length_map, length_firstOccurrences]

/-- C5 witness: on the example table, the first top entry is an address of
the table and the list length is `min 3` of the distinct-address count. -/
theorem c5_witness :
    (("1.1.1.1", 2) ∈ (computeStatsTable exampleTable).top_ips) ∧
    (("1.1.1.1", 2).1 ∈ exampleTable.map PacketRecord.sourceIP ∨
     ("1.1.1.1", 2).1 ∈ exampleTable.map PacketRecord.destIP) ∧
    (computeStatsTable exampleTable).top_ips.length
        = min 3 (combinedIPs exampleTable).toFinset.card :=
  ⟨by decide, (c5_top_ips_sound exampleTable).1 ("1.1.1.1", 2) (by decide),
    (c5_top_ips_sound exampleTable).2⟩

/-- The sorted list so far survives an insertion as a sublist. -/
theorem sublist_insertDesc {α : Type} (p : α × Nat) :
    ∀ l : List (α × Nat), l.Sublist (insertDesc p l)
  | [] => List.nil_sublist _
  | q :: qs => by
    rw [insertDesc]
    split
    · exact List.sublist_cons_self p (q :: qs)
    · exact (sublist_insertDesc p qs).cons₂ q

/-- Inserting `x` above an already-present `y` of no larger count places `x`
before `y`. -/
theorem pair_sublist_insertDesc {α : Type} {x y : α × Nat} (hxy : y.2 ≤ x.2) :
    ∀ {l : List (α × Nat)}, y ∈ l → List.Sublist [x, y] (insertDesc x l)
  | q :: qs, hy => by
    rw [insertDesc]
    split
    · exact (List.singleton_sublist.mpr hy).cons₂ x
    · rename_i hq
      rcases List.mem_cons.mp hy with rfl | hy'
      · exact absurd hxy hq
      · exact (pair_sublist_insertDesc hxy hy').cons q

/-- Stability of the count sort: two entries in order whose counts do not
increase stay in that order after sorting. -/
theorem sortCountDesc_stable {α : Type} {x y : α × Nat} (hxy : y.2 ≤ x.2) :
    ∀ {l : List (α × Nat)}, List.Sublist [x, y] l →
      List.Sublist [x, y] (sortCountDesc l)
  | p :: ps, hsub => by
    rw [sortCountDesc]
    cases hsub with
    | cons _ h =>
        exact (sortCountDesc_stable hxy h).trans (sublist_insertDesc p _)
    | cons₂ _ h =>
        exact pair_sublist_insertDesc hxy
          ((sortCountDesc_perm ps).mem_iff.mpr (List.singleton_sublist.mp h))

/-- An address first encountered earlier keeps its place in the
first-encounter dedup: it precedes any later-first-encountered address. -/
theorem firstOccurrences_order {α : Type} [DecidableEq α] {a b : α} :
    ∀ {l : List α}, a ∈ l → b ∈ l → l.indexOf a < l.indexOf b →
      List.Sublist [a, b] (firstOccurrences l)
  | x :: xs, ha, hb, hidx => by
    rw [firstOccurrences]
    by_cases hxa : x = a
    · subst hxa
      have hba : b ≠ x := by
        rintro rfl
        rw [List.indexOf_cons_self] at hidx
        exact absurd hidx (Nat.not_lt_of_le (Nat.zero_le _))
      have hbxs : b ∈ xs := (List.mem_cons.mp hb).resolve_left hba
      have hbf : b ∈ (firstOccurrences xs).filter (fun y => y ≠ x) :=
        List.mem_filter.mpr ⟨mem_firstOccurrences.mpr hbxs, by simp [hba]⟩
      exact (List.singleton_sublist.mpr hbf).cons₂ x
    · have hxb : x ≠ b := by
        rintro rfl
        rw [List.indexOf_cons_self] at hidx
        exact absurd hidx (Nat.not_lt_of_le (Nat.zero_le _))
      have haxs : a ∈ xs := (List.mem_cons.mp ha).resolve_left (fun h => hxa h.symm)
      have hbxs : b ∈ xs := (List.mem_cons.mp hb).resolve_left (fun h => hxb h.symm)
      have hidx' : xs.indexOf a < xs.indexOf b := by
        rw [List.indexOf_cons_ne xs hxa, List.indexOf_cons_ne xs hxb] at hidx
        exact Nat.lt_of_succ_lt_succ hidx
      have hax : ¬a = x := fun h => hxa h.symm
      have hbx : ¬b = x := fun h => hxb h.symm
      have hsub := (firstOccurrences_order haxs hbxs hidx').filter (fun y => y ≠ x)
      have hfix : List.filter (fun y => y ≠ x) [a, b] = [a, b] := by
        simp [List.filter_cons, hax, hbx]
      rw [hfix] at hsub
      exact hsub.cons x

/-- C4: when two distinct addresses have equal combined counts, the one
first encountered earlier in the combined source-then-destination sequence
precedes the other in the ranking whose first three entries form
`top_ips` -- the selection is stable, not arbitrary. -/
theorem c4_tie_break_stable (df : List PacketRecord) (a b : String)
    (ha : a ∈ combinedIPs df) (hb : b ∈ combinedIPs df)
    (hcount : (combinedIPs df).count a = (combinedIPs df).count b)
    (hidx : (combinedIPs df).indexOf a < (combinedIPs df).indexOf b) :
    List.Sublist
      [(a, (combinedIPs df).count a), (b, (combinedIPs df).count b)]
      (rankedIPs df) := by
  have hfo := firstOccurrences_order ha hb hidx
  have hmap := hfo.map (fun x => (x, (combinedIPs df).count x))
  exact sortCountDesc_stable (le_of_eq hcount.symm) hmap

/-- A table with a two-way tie: addresses a and b each occur twice in the
combined sequence, a first. -/
def tieTable : List PacketRecord :=
  [⟨"TCP", "10.0.0.1", "10.0.0.2", 60⟩, ⟨"UDP", "10.0.0.2", "10.0.0.1", 80⟩]

/-- C4 witness: in `tieTable` both addresses have combined count 2 and the
first-encountered one is ranked first. -/
theorem c4_witness :
    ("10.0.0.1" ∈ combinedIPs tieTable ∧ "10.0.0.2" ∈ combinedIPs tieTable ∧
     (combinedIPs tieTable).count "10.0.0.1" = (combinedIPs tieTable).count "10.0.0.2" ∧
     (combinedIPs tieTable).indexOf "10.0.0.1" < (combinedIPs tieTable).indexOf "10.0.0.2") ∧
    List.Sublist
      [("10.0.0.1", (combinedIPs tieTable).count "10.0.0.1"),
       ("10.0.0.2", (combinedIPs tieTable).count "10.0.0.2")]
      (rankedIPs tieTable) :=
  ⟨⟨by decide, by decide, by decide, by decide⟩,
    c4_tie_break_stable tieTable "10.0.0.1" "10.0.0.2"
      (by decide) (by decide) (by decide) (by decide)⟩

/-- C9: the count ranked for an address is its number of source-column
occurrences plus its number of destination-column occurrences (every entry
of the ranking carries exactly the combined count, and the combined count
splits as source count plus destination count -- so a row whose source and
destination coincide contributes 2). -/
theorem c9_combined_counts (df : List PacketRecord) (a : String)
    (p : String × Nat) (hp : p ∈ rankedIPs df) :
    (combinedIPs df).count a
        = (df.map PacketRecord.sourceIP).count a
          + (df.map PacketRecord.destIP).count a ∧
    p.2 = (combinedIPs df).count p.1 := by
  constructor
  · rw [combinedIPs, List.count_append]
  · have hp' := (sortCountDesc_perm (countPairs (combinedIPs df))).mem_iff.mp hp
    exact (mem_countPairs hp').2

/-- A one-row table whose source and destination are the same address. -/
def selfTalkTable : List PacketRecord :=
  [⟨"TCP", "7.7.7.7", "7.7.7.7", 40⟩]

/-- C9 witness: the single self-addressed row yields combined count 2
(1 from each column), and that is the count the ranking records. -/
theorem c9_witness :
    (("7.7.7.7", 2) ∈ rankedIPs selfTalkTable) ∧
    ((combinedIPs selfTalkTable).count "7.7.7.7"
        = (selfTalkTable.map PacketRecord.sourceIP).count "7.7.7.7"
          + (selfTalkTable.map PacketRecord.destIP).count "7.7.7.7" ∧
     ("7.7.7.7", 2).2 = (combinedIPs selfTalkTable).count ("7.7.7.7", 2).1) :=
  ⟨by decide, c9_combined_counts selfTalkTable "7.7.7.7" ("7.7.7.7", 2) (by decide)⟩
